import Mathlib

/-!
# Loyalty middleware gateway: verified model

A shallow embedding of the loyalty-middleware gateway (tenant currency
conversion, per-tenant fixed-window rate limiting, approval policy, the
booking orchestrator's create/cancel workflows) together with the admin
frontend's booking-list query construction and booking-details rendering.

The backend business-logic components are not shipped in this repository
(only their documentation, the mock-service contracts and deployment
scaffolding are), so those components are modelled from the specification
text, as noted on each definition.  The frontend definitions are direct
translations of the React source files.
-/

namespace LoyaltyMW

/-! ## Currency converter (spec 4.1) -/

/-- Modelled from the spec: "Rounding rule: half-up at the smallest
representable unit of the target currency."  `halfUpDiv n d` is `n / d`
rounded half-up on naturals (`0.5` rounds away from zero). -/
def halfUpDiv (n d : Nat) : Nat :=
  (2 * n + d) / (2 * d)

inductive AuthFamily where
  | api_key
  | oauth2
  | jwt_session
deriving DecidableEq

/-- Modelled from the spec (section 3): static per-tenant configuration
`{tenant_id, currency_code, units_per_usd, auth_family,
rate_limit_per_minute, approval_threshold_usd?, cabin_restriction?,
cashback_rate?}`.  `approval_threshold_usd` is held in USD minor units
(cents); `cashback_rate` is a percentage. -/
structure TenantProfile where
  tenant_id : String
  currency_code : String
  units_per_usd : Nat
  auth_family : AuthFamily
  rate_limit_per_minute : Nat
  approval_threshold_usd : Option Nat
  cabin_restriction : Option String
  cashback_rate : Option Nat
deriving DecidableEq

/-- Modelled from the spec (4.1): `toUsdMinorUnits(amount, tenantProfile)`
converts a tenant-native integral amount to USD minor units (cents),
rounding half-up at the smallest unit of the target currency (the cent).
The 64-bit `AmountOverflow` guard at the boundary is not modelled; the
arithmetic is on unbounded naturals. -/
def toUsdMinorUnits (amount : Nat) (t : TenantProfile) : Nat :=
  halfUpDiv (amount * 100) t.units_per_usd

/-- Modelled from the spec (4.1): `fromUsdMinorUnits(amountUsd,
tenantProfile)` converts USD minor units to the tenant-native currency,
rounding half-up at the smallest unit of the target (native) currency. -/
def fromUsdMinorUnits (amountUsd : Nat) (t : TenantProfile) : Nat :=
  halfUpDiv (amountUsd * t.units_per_usd) 100

/-- CoffeeChain: stars, 1 star = $0.01, API key auth, 100 req/min,
manual approval over 50,000 stars (= 50,000 cents = $500). -/
def coffeechain : TenantProfile :=
  { tenant_id := "coffeechain", currency_code := "stars", units_per_usd := 100,
    auth_family := .api_key, rate_limit_per_minute := 100,
    approval_threshold_usd := some 50000, cabin_restriction := none,
    cashback_rate := none }

/-- TelcoCorp: points, 100 points = $1, OAuth2 auth, 50 req/min,
economy class only. -/
def telcocorp : TenantProfile :=
  { tenant_id := "telcocorp", currency_code := "points", units_per_usd := 100,
    auth_family := .oauth2, rate_limit_per_minute := 50,
    approval_threshold_usd := none, cabin_restriction := some "economy",
    cashback_rate := none }

/-- FintechApp: coins, 1 coin = $1, JWT+session auth, 200 req/min,
2% cashback on all bookings. -/
def fintechapp : TenantProfile :=
  { tenant_id := "fintechapp", currency_code := "coins", units_per_usd := 1,
    auth_family := .jwt_session, rate_limit_per_minute := 200,
    approval_threshold_usd := none, cabin_restriction := none,
    cashback_rate := some 2 }

/-- The fixed set of tenants the gateway integrates with (the design
"targets exactly the fixed set of tenant variants"). -/
def tenants : List TenantProfile :=
  [coffeechain, telcocorp, fintechapp]

/-! ## Data model (spec section 3) -/

structure BookingRequest where
  flight_id : String
  member_id : String
  cabin_class : String
  /-- Price in tenant-native minor units. -/
  amount : Nat
deriving DecidableEq

inductive BookingStatus where
  | pending
  | pending_approval
  | confirmed
  | rejected
  | cancelled
  | failed
deriving DecidableEq

/-- Modelled from the spec (section 3): the persisted Booking entity.
Passenger details and timestamps are omitted; no verified property
mentions them. -/
structure Booking where
  booking_id : String
  tenant_id : String
  member_id : String
  flight_ref : String
  /-- Loyalty amount in tenant-native minor units. -/
  amount : Nat
  currency_code : String
  usd_equivalent : Nat
  cashback : Option Nat
  status : BookingStatus
  idempotency_key : String
deriving DecidableEq

inductive RefundStatus where
  | processed
  | failed
deriving DecidableEq

/-- Modelled from the spec (section 3): `{booking_id, amount, status:
processed|failed}`, append-only, created once per successful
cancellation. -/
structure RefundRecord where
  booking_id : String
  amount : Nat
  status : RefundStatus
deriving DecidableEq

/-- Modelled from the spec (section 7): the error taxonomy. -/
inductive ErrorKind where
  | AuthFailed
  | SessionExpired
  | MalformedMemberId
  | RateLimitExceeded (retry_after : Nat)
  | InsufficientBalance (required available : Nat)
  | InvalidCabinClass
  | InvalidStateTransition
  | UpstreamTimeout
  | AmountOverflow
  | BookingNotFound
  | InternalError
deriving DecidableEq

/-! ## Approval policy (spec 4.5) -/

inductive Decision where
  | auto_approve
  | requires_approval
  | rejected
deriving DecidableEq

/-- Modelled from the spec (4.5 rule 1): the tenant has a
`cabin_restriction` and the requested cabin does not match. -/
def cabinViolation (t : TenantProfile) (req : BookingRequest) : Bool :=
  match t.cabin_restriction with
  | some c => if req.cabin_class = c then false else true
  | none => false

/-- Modelled from the spec (4.5): `evaluate(tenantProfile,
bookingRequest) -> Decision`, rules applied in the fixed order
cabin restriction, then approval threshold (strictly exceeded), else
auto-approve. -/
def evaluate (t : TenantProfile) (req : BookingRequest) : Decision :=
  if cabinViolation t req then .rejected
  else
    match t.approval_threshold_usd with
    | some th =>
        if th < toUsdMinorUnits req.amount t then .requires_approval
        else .auto_approve
    | none => .auto_approve

/-- Modelled from the spec (4.5 rule 3 and section 3): the booking record
the orchestrator persists; `cashback_rate` (if any) is applied on the
auto-approved (confirmed) path only. -/
def mkBooking (t : TenantProfile) (req : BookingRequest) (key : String)
    (st : BookingStatus) : Booking :=
  { booking_id := String.append "bkg_" key,
    tenant_id := t.tenant_id,
    member_id := req.member_id,
    flight_ref := req.flight_id,
    amount := req.amount,
    currency_code := t.currency_code,
    usd_equivalent := toUsdMinorUnits req.amount t,
    cashback :=
      if st = .confirmed then t.cashback_rate.map (fun r => req.amount * r / 100)
      else none,
    status := st,
    idempotency_key := key }

/-! ## Orchestrator state (spec 4.4, 4.6)

`World` bundles the gateway's booking store with the single member's view
of the upstream balance service (its balance and the set of idempotency
keys it has already honoured).  The call counters record how many
upstream balance-check / reservation calls and how many actual balance
deductions have been performed, so that "no call was made" properties are
stated as counter equalities. -/

structure World where
  balance : Nat
  usedKeys : List String
  bookings : List Booking
  refunds : List RefundRecord
  balanceCalls : Nat
  reserveCalls : Nat
  deductions : Nat
deriving DecidableEq

inductive DeductStatus where
  | success
  | insufficient
  | failed
deriving DecidableEq

/-- Modelled from the spec (4.4): `deduct(principal, amount,
idempotencyKey)`; the upstream is the source of truth for idempotency,
so a key already honoured deducts nothing and reports success. -/
def deduct (amount : Nat) (key : String) (w : World) : DeductStatus × World :=
  if w.usedKeys.contains key then (.success, w)
  else if amount ≤ w.balance then
    (.success,
      { w with balance := w.balance - amount,
               usedKeys := key :: w.usedKeys,
               deductions := w.deductions + 1 })
  else (.insufficient, w)

inductive CreateResult where
  | created (b : Booking)
  | error (e : ErrorKind)
deriving DecidableEq

/-- The persisted status a create outcome reports, if any. -/
def resultStatus : CreateResult → Option BookingStatus
  | .created b => some b.status
  | .error _ => none

/-- Modelled from the spec (4.6, create-booking transition protocol):
an already-seen idempotency key replays the stored booking unchanged;
otherwise `checkBalance` (step 2, terminating with `InsufficientBalance`
when short), then the approval policy (step 3: `rejected` terminates
with `InvalidCabinClass`, `requires_approval` persists the booking as
`pending_approval` with no deduction and no reservation), and on
`auto_approve` (step 4) reserve with the supplier, deduct with the
idempotency key, and confirm; on deduction failure the reservation is
released and the booking marked failed.  `reserveOk` is the external
flight supplier's answer. -/
def createBooking (t : TenantProfile) (req : BookingRequest) (key : String)
    (reserveOk : Bool) (w : World) : CreateResult × World :=
  match w.bookings.find? (fun b => b.idempotency_key == key) with
  | some b => (.created b, w)
  | none =>
    let w1 : World := { w with balanceCalls := w.balanceCalls + 1 }
    if w.balance < req.amount then
      (.error (.InsufficientBalance req.amount w.balance), w1)
    else
      match evaluate t req with
      | .rejected => (.error .InvalidCabinClass, w1)
      | .requires_approval =>
        let b := mkBooking t req key .pending_approval
        (.created b, { w1 with bookings := b :: w1.bookings })
      | .auto_approve =>
        if reserveOk then
          let w2 : World := { w1 with reserveCalls := w1.reserveCalls + 1 }
          match deduct req.amount key w2 with
          | (.success, w3) =>
            let b := mkBooking t req key .confirmed
            (.created b, { w3 with bookings := b :: w3.bookings })
          | (_, w3) =>
            let b := mkBooking t req key .failed
            (.error .InternalError, { w3 with bookings := b :: w3.bookings })
        else (.error .UpstreamTimeout, w1)

/-- Upstream refund outcome observed by the orchestrator during a
cancellation, after the bounded retry policy has run its course:
processed, rejected, or timed out with retries exhausted. -/
inductive RefundOutcome where
  | processed
  | failed
  | timedOut
deriving DecidableEq

inductive CancelResult where
  | cancelled (b : Booking) (rcd : RefundRecord)
  | error (e : ErrorKind)
deriving DecidableEq

/-- Modelled from the spec (4.6, cancel-booking transition protocol):
only `confirmed → cancelled` is legal, anything else fails with
`InvalidStateTransition` and changes nothing.  On cancel: release with
the supplier (`releaseOk` is the supplier's answer; a failed release
changes nothing), then refund; a refund failure or timeout after a
successful release still transitions the booking to `cancelled` and
appends a Refund Record marked `failed` — the cancellation is not rolled
back. -/
def cancelBooking (bid : String) (releaseOk : Bool) (ro : RefundOutcome)
    (w : World) : CancelResult × World :=
  match w.bookings.find? (fun b => b.booking_id == bid) with
  | none => (.error .BookingNotFound, w)
  | some b =>
    if b.status = .confirmed then
      if releaseOk then
        let b2 : Booking := { b with status := .cancelled }
        let st : RefundStatus := match ro with
          | .processed => .processed
          | _ => .failed
        let rcd : RefundRecord := { booking_id := bid, amount := b.amount, status := st }
        let newBal : Nat := match ro with
          | .processed => w.balance + b.amount
          | _ => w.balance
        (.cancelled b2 rcd,
          { w with
              bookings := w.bookings.map (fun x => if x.booking_id == bid then b2 else x),
              refunds := rcd :: w.refunds,
              balance := newBal })
      else (.error .UpstreamTimeout, w)
    else (.error .InvalidStateTransition, w)

/-! ## Rate limiter (spec 4.3) -/

/-- Modelled from the spec (section 3): per-tenant counter state
`{window_start, count}` (the `tenant_id` key lives in the per-tenant
store, not repeated here); `none` means no window has been opened yet. -/
structure RateWindow where
  window_start : Nat
  count : Nat
deriving DecidableEq

/-- Modelled from the spec (4.3): `admit(tenant_id) -> allowed,
retryAfterSeconds`.  Fixed-window counting, window length 60 seconds,
counter reset atomically with the first admission of a new window; a
rejection carries the seconds left until the window elapses. -/
def admitRequest (lim : Nat) (now : Nat) (w : Option RateWindow) :
    Bool × Nat × RateWindow :=
  let cur : RateWindow :=
    match w with
    | none => { window_start := now, count := 0 }
    | some rw => if rw.window_start + 60 ≤ now then { window_start := now, count := 0 } else rw
  if cur.count < lim then (true, 0, { cur with count := cur.count + 1 })
  else (false, cur.window_start + 60 - now, cur)

/-- Issue a sequence of admission requests at the given times, threading
the per-tenant window state; returns each request's
`(allowed, retryAfterSeconds)` pair and the final window state. -/
def runAdmits (lim : Nat) : List Nat → Option RateWindow →
    List (Bool × Nat) × Option RateWindow
  | [], w => ([], w)
  | tNow :: ts, w =>
    let a := admitRequest lim tNow w
    let rest := runAdmits lim ts (some a.2.2)
    ((a.1, a.2.1) :: rest.1, rest.2)

inductive GatewayResponse where
  | rateLimited (retry_after : Nat)
  | done (r : CreateResult)
deriving DecidableEq

/-- Modelled from the spec (4.3, section 2 control flow): the boundary
admits under the rate limit before the Orchestrator runs; rejections
short-circuit with a rate-limit error carrying `retry_after` and never
reach the Orchestrator (the `World` is untouched). -/
def handleCreate (t : TenantProfile) (now : Nat) (rw : Option RateWindow)
    (req : BookingRequest) (key : String) (reserveOk : Bool) (w : World) :
    GatewayResponse × RateWindow × World :=
  let a := admitRequest t.rate_limit_per_minute now rw
  if a.1 then
    let r := createBooking t req key reserveOk w
    (.done r.1, a.2.2, r.2)
  else (.rateLimited a.2.1, a.2.2, w)

/-! ## Admin frontend (React source under `frontend/src`)

JavaScript values relevant to the rendered dashboard are modelled by
`JSVal`; `truthy` is JavaScript truthiness restricted to those values. -/

inductive JSVal where
  | undef
  | null
  | num (n : Int)
  | str (s : String)
deriving DecidableEq

def truthy : JSVal → Bool
  | .undef => false
  | .null => false
  | .num n => if n = 0 then false else true
  | .str s => if s = "" then false else true

def jsToString : JSVal → String
  | .undef => "undefined"
  | .null => "null"
  | .num n => toString n
  | .str s => s

/-- The `{value || '-'}` rendering idiom used throughout
`BookingDetails.js`: a falsy value renders as a dash. -/
def orDash (v : JSVal) : String :=
  if truthy v then jsToString v else "-"

/-- The `payment` object of a booking as delivered to the frontend
(`loyalty_amount`, `loyalty_currency`, `usd_equivalent`, `cashback`). -/
structure PaymentObj where
  loyalty_amount : JSVal
  loyalty_currency : JSVal
  usd_equivalent : JSVal
  cashback : JSVal
deriving DecidableEq

/-- The Payment section of `BookingDetails.js` as (label, rendered text)
pairs; `none` models a missing `booking.payment` (the `?.` optional
chaining yields `undefined` for every field). -/
def paymentSection (payment : Option PaymentObj) : List (String × String) :=
  let get : (PaymentObj → JSVal) → JSVal := fun f =>
    match payment with
    | some p => f p
    | none => JSVal.undef
  [("Loyalty Amount", orDash (get (fun p => p.loyalty_amount))),
   ("Loyalty Currency", orDash (get (fun p => p.loyalty_currency))),
   ("USD Equivalent", orDash (get (fun p => p.usd_equivalent)))]

/-- Rendered text for a given label in a rendered section. -/
def renderedValue (sec : List (String × String)) (label : String) : Option String :=
  (sec.find? (fun e => e.1 == label)).map (fun e => e.2)

/-- The filter object held by the Dashboard (`tenant`, `status`,
`fromDate`, `toDate`); an untouched field is `undefined`. -/
structure Filters where
  tenant : JSVal
  status : JSVal
  fromDate : JSVal
  toDate : JSVal
deriving DecidableEq

def emptyFilters : Filters :=
  { tenant := .undef, status := .undef, fromDate := .undef, toDate := .undef }

/-- `fetchBookings` in `frontend/src/App.js` (api/bookings): each query
parameter is added to `params` only when the corresponding filter field
is truthy; `fromDate`/`toDate` map to `from_date`/`to_date`. -/
def buildParams (f : Filters) : List (String × JSVal) :=
  (if truthy f.tenant then [("tenant", f.tenant)] else []) ++
  (if truthy f.status then [("status", f.status)] else []) ++
  (if truthy f.fromDate then [("from_date", f.fromDate)] else []) ++
  (if truthy f.toDate then [("to_date", f.toDate)] else [])

/-! ## Theorems -/

/-- C1: for every tenant of the gateway and every non-negative
tenant-native integral amount `a`, converting to USD minor units and
back (`fromUsdMinorUnits (toUsdMinorUnits a T) T`) is within one minor
unit of `a`, and is exactly `a` whenever the tenant's `units_per_usd`
ratio divides the amount evenly; both conversions round half-up at the
smallest unit of the target currency. -/
theorem roundtrip_within_one (t : TenantProfile) (ht : t ∈ tenants) (a : Nat) :
    (fromUsdMinorUnits (toUsdMinorUnits a t) t ≤ a + 1 ∧
     a ≤ fromUsdMinorUnits (toUsdMinorUnits a t) t + 1) ∧
    (t.units_per_usd ∣ a → fromUsdMinorUnits (toUsdMinorUnits a t) t = a) := by
  have key : fromUsdMinorUnits (toUsdMinorUnits a t) t = a := by
    have ht2 : t = coffeechain ∨ t = telcocorp ∨ t = fintechapp := by
      simpa [tenants] using ht
    rcases ht2 with rfl | rfl | rfl <;>
      simp only [fromUsdMinorUnits, toUsdMinorUnits, halfUpDiv,
        coffeechain, telcocorp, fintechapp] <;> omega
  exact ⟨⟨by omega, by omega⟩, fun _ => key⟩

/-- Witness for C1 at tenant CoffeeChain and amount 350 stars. -/
theorem roundtrip_within_one_witness :
    coffeechain ∈ tenants ∧
    ((fromUsdMinorUnits (toUsdMinorUnits 350 coffeechain) coffeechain ≤ 350 + 1 ∧
      350 ≤ fromUsdMinorUnits (toUsdMinorUnits 350 coffeechain) coffeechain + 1) ∧
     (coffeechain.units_per_usd ∣ 350 →
      fromUsdMinorUnits (toUsdMinorUnits 350 coffeechain) coffeechain = 350)) :=
  ⟨by decide, roundtrip_within_one coffeechain (by decide) 350⟩

/-- C8 counterexample: for a concrete booking whose payment carries all
four fields (including `cashback = 70`), the Payment section of the
booking-details view renders exactly the labels Loyalty Amount, Loyalty
Currency and USD Equivalent — no Cashback entry appears, and the
cashback value 70 is rendered nowhere, refuting the claim that all four
payment fields are displayed. -/
theorem payment_section_no_cashback_counterexample :
    (paymentSection (some { loyalty_amount := .num 3500000,
                            loyalty_currency := .str "stars",
                            usd_equivalent := .num 35000,
                            cashback := .num 70 })).map Prod.fst =
      ["Loyalty Amount", "Loyalty Currency", "USD Equivalent"] ∧
    ((paymentSection (some { loyalty_amount := .num 3500000,
                             loyalty_currency := .str "stars",
                             usd_equivalent := .num 35000,
                             cashback := .num 70 })).map Prod.fst).contains "Cashback"
      = false ∧
    ((paymentSection (some { loyalty_amount := .num 3500000,
                             loyalty_currency := .str "stars",
                             usd_equivalent := .num 35000,
                             cashback := .num 70 })).map Prod.snd).contains "70"
      = false := by
  decide

/-- C8 (amended): the booking-details view displays exactly three of the
four payment fields — `loyalty_amount`, `loyalty_currency` and
`usd_equivalent`; `cashback` is not rendered. -/
theorem payment_section_fields (payment : Option PaymentObj) :
    (paymentSection payment).map Prod.fst =
      ["Loyalty Amount", "Loyalty Currency", "USD Equivalent"] := by
  cases payment <;> rfl

/-- Transitioning the found booking in place preserves its position:
after mapping the update over the store, looking the id up again yields
the updated booking. -/
theorem find_in_updated (l : List Booking) (bid : String) (b b2 : Booking)
    (hf : l.find? (fun x => x.booking_id == bid) = some b)
    (hid : b2.booking_id = b.booking_id) :
    (l.map (fun x => if x.booking_id == bid then b2 else x)).find?
      (fun x => x.booking_id == bid) = some b2 := by
  induction l with
  | nil => simp at hf
  | cons a l ih =>
    rcases eq_or_ne a.booking_id bid with he | hne
    · rw [List.find?_cons_of_pos _ (by simp [he])] at hf
      have hb : a = b := by injection hf
      subst hb
      simp only [List.map_cons, if_pos (by simp [he] : (a.booking_id == bid) = true)]
      exact List.find?_cons_of_pos _ (by simp [hid, he])
    · rw [List.find?_cons_of_neg _ (by simp [hne])] at hf
      simp only [List.map_cons, if_neg (by simp [hne] : ¬ (a.booking_id == bid) = true)]
      rw [List.find?_cons_of_neg _ (by simp [hne])]
      exact ih hf

/-- C3: cancelling a booking whose status is not `confirmed` fails with
`InvalidStateTransition` and leaves the entire state (booking included)
unchanged; only `confirmed → cancelled` is a legal transition. -/
theorem cancel_nonconfirmed_fails (bid : String) (releaseOk : Bool)
    (ro : RefundOutcome) (w : World) (b : Booking)
    (hf : w.bookings.find? (fun x => x.booking_id == bid) = some b)
    (hst : b.status ≠ .confirmed) :
    cancelBooking bid releaseOk ro w = (.error .InvalidStateTransition, w) := by
  unfold cancelBooking
  rw [hf]
  simp [hst]

/-- Witness for C3: cancelling a `pending_approval` booking fails with
`InvalidStateTransition` and the world is unchanged. -/
theorem cancel_nonconfirmed_fails_witness :
    (World.mk 1000 [] [Booking.mk "b1" "coffeechain" "CC1234567" "flt" 200 "stars" 200
        none .pending_approval "k1"] [] 0 0 0).bookings.find?
        (fun x => x.booking_id == "b1") =
      some (Booking.mk "b1" "coffeechain" "CC1234567" "flt" 200 "stars" 200
        none .pending_approval "k1") ∧
    cancelBooking "b1" true .processed
      (World.mk 1000 [] [Booking.mk "b1" "coffeechain" "CC1234567" "flt" 200 "stars" 200
        none .pending_approval "k1"] [] 0 0 0) =
      (.error .InvalidStateTransition,
       World.mk 1000 [] [Booking.mk "b1" "coffeechain" "CC1234567" "flt" 200 "stars" 200
        none .pending_approval "k1"] [] 0 0 0) :=
  ⟨by decide,
   cancel_nonconfirmed_fails "b1" true .processed
     (World.mk 1000 [] [Booking.mk "b1" "coffeechain" "CC1234567" "flt" 200 "stars" 200
        none .pending_approval "k1"] [] 0 0 0)
     (Booking.mk "b1" "coffeechain" "CC1234567" "flt" 200 "stars" 200
        none .pending_approval "k1")
     (by decide) (by decide)⟩

/-- C5: cancelling a `confirmed` booking when the supplier release
succeeds but the refund is rejected or times out still transitions the
booking to `cancelled` and appends a Refund Record with status `failed`;
the cancellation is not rolled back (the member balance is not
recredited and the store keeps the cancelled booking). -/
theorem cancel_refund_failure (bid : String) (ro : RefundOutcome) (w : World)
    (b : Booking)
    (hf : w.bookings.find? (fun x => x.booking_id == bid) = some b)
    (hst : b.status = .confirmed)
    (hro : ro ≠ .processed) :
    cancelBooking bid true ro w =
      (.cancelled { b with status := .cancelled }
         (RefundRecord.mk bid b.amount .failed),
       { w with
           bookings := w.bookings.map
             (fun x => if x.booking_id == bid then { b with status := .cancelled } else x),
           refunds := RefundRecord.mk bid b.amount .failed :: w.refunds }) ∧
    (cancelBooking bid true ro w).2.bookings.find? (fun x => x.booking_id == bid) =
      some { b with status := .cancelled } ∧
    (cancelBooking bid true ro w).2.balance = w.balance := by
  have hmain : cancelBooking bid true ro w =
      (.cancelled { b with status := .cancelled }
         (RefundRecord.mk bid b.amount .failed),
       { w with
           bookings := w.bookings.map
             (fun x => if x.booking_id == bid then { b with status := .cancelled } else x),
           refunds := RefundRecord.mk bid b.amount .failed :: w.refunds }) := by
    unfold cancelBooking
    rw [hf]
    cases ro with
    | processed => exact absurd rfl hro
    | failed => simp [hst]
    | timedOut => simp [hst]
  refine ⟨hmain, ?_, ?_⟩
  · rw [hmain]
    exact find_in_updated w.bookings bid b { b with status := .cancelled } hf rfl
  · rw [hmain]

/-- Witness for C5: a confirmed booking cancelled while the refund times
out ends `cancelled` with a `failed` Refund Record and no recredit. -/
theorem cancel_refund_failure_witness :
    (World.mk 50 [] [Booking.mk "b2" "fintechapp" "FA_12345678" "flt" 100 "coins" 10000
        (some 2) .confirmed "k2"] [] 1 1 1).bookings.find?
        (fun x => x.booking_id == "b2") =
      some (Booking.mk "b2" "fintechapp" "FA_12345678" "flt" 100 "coins" 10000
        (some 2) .confirmed "k2") ∧
    (cancelBooking "b2" true .timedOut
        (World.mk 50 [] [Booking.mk "b2" "fintechapp" "FA_12345678" "flt" 100 "coins" 10000
          (some 2) .confirmed "k2"] [] 1 1 1) =
      (.cancelled
         { Booking.mk "b2" "fintechapp" "FA_12345678" "flt" 100 "coins" 10000
             (some 2) .confirmed "k2" with status := .cancelled }
         (RefundRecord.mk "b2" 100 .failed),
       { World.mk 50 [] [Booking.mk "b2" "fintechapp" "FA_12345678" "flt" 100 "coins" 10000
           (some 2) .confirmed "k2"] [] 1 1 1 with
           bookings := (World.mk 50 [] [Booking.mk "b2" "fintechapp" "FA_12345678" "flt" 100
               "coins" 10000 (some 2) .confirmed "k2"] [] 1 1 1).bookings.map
             (fun x => if x.booking_id == "b2" then
               { Booking.mk "b2" "fintechapp" "FA_12345678" "flt" 100 "coins" 10000
                   (some 2) .confirmed "k2" with status := .cancelled } else x),
           refunds := RefundRecord.mk "b2" 100 .failed :: [] }) ∧
     (cancelBooking "b2" true .timedOut
        (World.mk 50 [] [Booking.mk "b2" "fintechapp" "FA_12345678" "flt" 100 "coins" 10000
          (some 2) .confirmed "k2"] [] 1 1 1)).2.bookings.find?
        (fun x => x.booking_id == "b2") =
      some { Booking.mk "b2" "fintechapp" "FA_12345678" "flt" 100 "coins" 10000
          (some 2) .confirmed "k2" with status := .cancelled } ∧
     (cancelBooking "b2" true .timedOut
        (World.mk 50 [] [Booking.mk "b2" "fintechapp" "FA_12345678" "flt" 100 "coins" 10000
          (some 2) .confirmed "k2"] [] 1 1 1)).2.balance =
      (World.mk 50 [] [Booking.mk "b2" "fintechapp" "FA_12345678" "flt" 100 "coins" 10000
          (some 2) .confirmed "k2"] [] 1 1 1).balance) :=
  ⟨by decide,
   cancel_refund_failure "b2" .timedOut
     (World.mk 50 [] [Booking.mk "b2" "fintechapp" "FA_12345678" "flt" 100 "coins" 10000
        (some 2) .confirmed "k2"] [] 1 1 1)
     (Booking.mk "b2" "fintechapp" "FA_12345678" "flt" 100 "coins" 10000
        (some 2) .confirmed "k2")
     (by decide) (by decide) (by decide)⟩

/-- C4 counterexample: a CoffeeChain create request for 60,000 stars
(USD equivalent 60,000 cents, above the 50,000-cent threshold) issued by
a member whose balance (1,000 stars) is insufficient does not yield a
`pending_approval` booking: per the create protocol the balance check
runs first and the request terminates with `InsufficientBalance`,
persisting no booking — refuting "regardless of whether the member's
balance is sufficient". -/
theorem approval_threshold_counterexample :
    coffeechain.approval_threshold_usd = some 50000 ∧
    toUsdMinorUnits 60000 coffeechain = 60000 ∧
    (createBooking coffeechain (BookingRequest.mk "flt" "CC1234567" "economy" 60000)
        "k4" true (World.mk 1000 [] [] [] 0 0 0)).1 =
      .error (.InsufficientBalance 60000 1000) ∧
    (createBooking coffeechain (BookingRequest.mk "flt" "CC1234567" "economy" 60000)
        "k4" true (World.mk 1000 [] [] [] 0 0 0)).2.bookings = [] := by
  decide

/-- C4 (amended): a fresh create request whose USD equivalent exceeds
the tenant's `approval_threshold_usd` never yields a `confirmed`
booking, and performs no deduction, no reservation and no balance
change on any path; when additionally the cabin restriction is satisfied
and the member's balance is sufficient (the balance check of step 2
precedes policy evaluation), it yields exactly a `pending_approval`
booking with no other state change. -/
theorem approval_threshold_pending (t : TenantProfile) (req : BookingRequest)
    (key : String) (ro : Bool) (w : World) (th : Nat)
    (hfind : w.bookings.find? (fun b => b.idempotency_key == key) = none)
    (hth : t.approval_threshold_usd = some th)
    (hgt : th < toUsdMinorUnits req.amount t) :
    resultStatus (createBooking t req key ro w).1 ≠ some BookingStatus.confirmed ∧
    ((createBooking t req key ro w).2.deductions = w.deductions ∧
     (createBooking t req key ro w).2.reserveCalls = w.reserveCalls ∧
     (createBooking t req key ro w).2.balance = w.balance) ∧
    (cabinViolation t req = false → req.amount ≤ w.balance →
      createBooking t req key ro w =
        (.created (mkBooking t req key .pending_approval),
         { w with balanceCalls := w.balanceCalls + 1,
                  bookings := mkBooking t req key .pending_approval :: w.bookings })) := by
  have hev : evaluate t req =
      if cabinViolation t req then .rejected else .requires_approval := by
    unfold evaluate
    rw [hth]
    by_cases hcv : cabinViolation t req <;> simp [hcv, hgt]
  unfold createBooking
  rw [hfind]
  by_cases hb : w.balance < req.amount
  · rw [if_pos hb]
    exact ⟨by simp [resultStatus], ⟨rfl, rfl, rfl⟩, fun _ hba => absurd hb (by omega)⟩
  · rw [if_neg hb, hev]
    by_cases hcv : cabinViolation t req
    · rw [if_pos hcv]
      exact ⟨by simp [resultStatus], ⟨rfl, rfl, rfl⟩,
        fun hc _ => by rw [hc] at hcv; exact absurd hcv (by simp)⟩
    · rw [if_neg hcv]
      exact ⟨by simp [resultStatus, mkBooking], ⟨rfl, rfl, rfl⟩, fun _ _ => rfl⟩

/-- Witness for C4 (amended) at CoffeeChain, 60,000 stars, balance
150,000 stars: the create yields a `pending_approval` booking and only
records the balance check. -/
theorem approval_threshold_pending_witness :
    coffeechain.approval_threshold_usd = some 50000 ∧
    createBooking coffeechain (BookingRequest.mk "flt" "CC1234567" "economy" 60000)
        "k4" true (World.mk 150000 [] [] [] 0 0 0) =
      (.created (mkBooking coffeechain
          (BookingRequest.mk "flt" "CC1234567" "economy" 60000) "k4" .pending_approval),
       World.mk 150000 []
         [mkBooking coffeechain (BookingRequest.mk "flt" "CC1234567" "economy" 60000)
            "k4" .pending_approval] [] 1 0 0) :=
  ⟨by decide,
   (approval_threshold_pending coffeechain
      (BookingRequest.mk "flt" "CC1234567" "economy" 60000) "k4" true
      (World.mk 150000 [] [] [] 0 0 0) 50000
      (by decide) (by decide) (by decide)).2.2 (by decide) (by decide)⟩

/-- C7 counterexample: a TelcoCorp create request for `business` cabin
with sufficient balance is rejected with `InvalidCabinClass`, but the
upstream balance-call counter has been incremented from 0 to 1 in
producing that rejection — a `checkBalance` call precedes the cabin
rejection, refuting "before any upstream balance call". -/
theorem cabin_rejection_counterexample :
    telcocorp.cabin_restriction = some "economy" ∧
    (createBooking telcocorp (BookingRequest.mk "flt" "TC-ABC123" "business" 5000)
        "k7" true (World.mk 25000 [] [] [] 0 0 0)).1 = .error .InvalidCabinClass ∧
    (createBooking telcocorp (BookingRequest.mk "flt" "TC-ABC123" "business" 5000)
        "k7" true (World.mk 25000 [] [] [] 0 0 0)).2.balanceCalls = 1 := by
  decide

/-- C7 (amended): a fresh create request with sufficient balance whose
requested cabin violates the tenant's `cabin_restriction` is rejected
with `InvalidCabinClass` with no booking persisted, no deduction and no
reservation — but the rejection happens after the balance check: exactly
one `checkBalance` upstream call precedes it (and with insufficient
balance the request instead terminates with `InsufficientBalance`). -/
theorem cabin_rejection_after_balance (t : TenantProfile) (req : BookingRequest)
    (key : String) (ro : Bool) (w : World) (c : String)
    (hfind : w.bookings.find? (fun b => b.idempotency_key == key) = none)
    (hc : t.cabin_restriction = some c)
    (hcc : req.cabin_class ≠ c)
    (hbal : req.amount ≤ w.balance) :
    createBooking t req key ro w =
      (.error .InvalidCabinClass, { w with balanceCalls := w.balanceCalls + 1 }) := by
  have hcv : cabinViolation t req = true := by
    unfold cabinViolation
    rw [hc]
    simp [hcc]
  have hev : evaluate t req = .rejected := by
    unfold evaluate
    rw [hcv]
    rfl
  unfold createBooking
  rw [hfind, if_neg (by omega), hev]

/-- Witness for C7 (amended) at TelcoCorp, `business` cabin, balance
25,000 points: the rejection is `InvalidCabinClass` and only the
balance-call counter changes. -/
theorem cabin_rejection_after_balance_witness :
    telcocorp.cabin_restriction = some "economy" ∧
    createBooking telcocorp (BookingRequest.mk "flt" "TC-ABC123" "business" 5000)
        "k7" true (World.mk 25000 [] [] [] 0 0 0) =
      (.error .InvalidCabinClass, World.mk 25000 [] [] [] 1 0 0) :=
  ⟨by decide,
   cabin_rejection_after_balance telcocorp
     (BookingRequest.mk "flt" "TC-ABC123" "business" 5000) "k7" true
     (World.mk 25000 [] [] [] 0 0 0) "economy"
     (by decide) (by decide) (by decide) (by decide)⟩

/-- C2: submitting the same create request twice with the same (fresh)
idempotency key on the charging path (sufficient balance, auto-approved,
reservation succeeds) yields exactly one balance deduction and exactly
one booking record: the first create confirms the booking and deducts
once; the retried create returns the same confirmed booking and changes
nothing, so across both submissions the balance decreased by the amount
exactly once and exactly one booking carries the key. -/
theorem create_retry_idempotent (t : TenantProfile) (req : BookingRequest)
    (key : String) (w : World)
    (hfind : w.bookings.find? (fun b => b.idempotency_key == key) = none)
    (hused : w.usedKeys.contains key = false)
    (hbal : req.amount ≤ w.balance)
    (happ : evaluate t req = .auto_approve) :
    createBooking t req key true w =
      (.created (mkBooking t req key .confirmed),
       World.mk (w.balance - req.amount) (key :: w.usedKeys)
         (mkBooking t req key .confirmed :: w.bookings) w.refunds
         (w.balanceCalls + 1) (w.reserveCalls + 1) (w.deductions + 1)) ∧
    createBooking t req key true (createBooking t req key true w).2 =
      (.created (mkBooking t req key .confirmed),
       (createBooking t req key true w).2) ∧
    (createBooking t req key true (createBooking t req key true w).2).2.deductions =
      w.deductions + 1 ∧
    (createBooking t req key true (createBooking t req key true w).2).2.balance +
      req.amount = w.balance ∧
    (createBooking t req key true (createBooking t req key true w).2).2.bookings.countP
      (fun b => b.idempotency_key == key) = 1 ∧
    (createBooking t req key true (createBooking t req key true w).2).2.bookings.length =
      w.bookings.length + 1 := by
  have h1 : createBooking t req key true w =
      (.created (mkBooking t req key .confirmed),
       World.mk (w.balance - req.amount) (key :: w.usedKeys)
         (mkBooking t req key .confirmed :: w.bookings) w.refunds
         (w.balanceCalls + 1) (w.reserveCalls + 1) (w.deductions + 1)) := by
    have hmem : key ∉ w.usedKeys := by simpa using hused
    unfold createBooking
    rw [hfind, if_neg (show ¬ w.balance < req.amount from by omega), happ]
    unfold deduct
    simp [hmem, hbal]
  have hkey : (mkBooking t req key .confirmed).idempotency_key == key := by
    simp [mkBooking]
  have hnone : ∀ b ∈ w.bookings, ¬ (b.idempotency_key == key) := by
    exact List.find?_eq_none.mp hfind
  have h2 : createBooking t req key true (createBooking t req key true w).2 =
      (.created (mkBooking t req key .confirmed),
       (createBooking t req key true w).2) := by
    rw [h1]
    unfold createBooking
    simp [hkey]
  refine ⟨h1, h2, ?_, ?_, ?_, ?_⟩
  · rw [h2, h1]
  · rw [h2, h1]
    simp
    omega
  · rw [h2, h1]
    have hz : List.countP (fun b => b.idempotency_key == key) w.bookings = 0 :=
      List.countP_eq_zero.mpr hnone
    simp [List.countP_cons, hkey, hz]
  · rw [h2, h1]
    simp

/-- Witness for C2 at FintechApp, 100 coins, balance 2,500 coins: the
double submission leaves one confirmed booking, one deduction, and the
second call is a no-op. -/
theorem create_retry_idempotent_witness :
    evaluate fintechapp (BookingRequest.mk "flt" "FA_12345678" "economy" 100) =
      .auto_approve ∧
    (createBooking fintechapp (BookingRequest.mk "flt" "FA_12345678" "economy" 100)
        "k2" true (World.mk 2500 [] [] [] 0 0 0) =
      (.created (mkBooking fintechapp
          (BookingRequest.mk "flt" "FA_12345678" "economy" 100) "k2" .confirmed),
       World.mk 2400 ["k2"]
         [mkBooking fintechapp (BookingRequest.mk "flt" "FA_12345678" "economy" 100)
            "k2" .confirmed] [] 1 1 1) ∧
     createBooking fintechapp (BookingRequest.mk "flt" "FA_12345678" "economy" 100)
        "k2" true
        (createBooking fintechapp (BookingRequest.mk "flt" "FA_12345678" "economy" 100)
          "k2" true (World.mk 2500 [] [] [] 0 0 0)).2 =
      (.created (mkBooking fintechapp
          (BookingRequest.mk "flt" "FA_12345678" "economy" 100) "k2" .confirmed),
       (createBooking fintechapp (BookingRequest.mk "flt" "FA_12345678" "economy" 100)
          "k2" true (World.mk 2500 [] [] [] 0 0 0)).2) ∧
     (createBooking fintechapp (BookingRequest.mk "flt" "FA_12345678" "economy" 100)
        "k2" true
        (createBooking fintechapp (BookingRequest.mk "flt" "FA_12345678" "economy" 100)
          "k2" true (World.mk 2500 [] [] [] 0 0 0)).2).2.deductions = 0 + 1 ∧
     (createBooking fintechapp (BookingRequest.mk "flt" "FA_12345678" "economy" 100)
        "k2" true
        (createBooking fintechapp (BookingRequest.mk "flt" "FA_12345678" "economy" 100)
          "k2" true (World.mk 2500 [] [] [] 0 0 0)).2).2.balance + 100 = 2500 ∧
     (createBooking fintechapp (BookingRequest.mk "flt" "FA_12345678" "economy" 100)
        "k2" true
        (createBooking fintechapp (BookingRequest.mk "flt" "FA_12345678" "economy" 100)
          "k2" true (World.mk 2500 [] [] [] 0 0 0)).2).2.bookings.countP
        (fun b => b.idempotency_key == "k2") = 1 ∧
     (createBooking fintechapp (BookingRequest.mk "flt" "FA_12345678" "economy" 100)
        "k2" true
        (createBooking fintechapp (BookingRequest.mk "flt" "FA_12345678" "economy" 100)
          "k2" true (World.mk 2500 [] [] [] 0 0 0)).2).2.bookings.length = 0 + 1) :=
  ⟨by decide,
   create_retry_idempotent fintechapp
     (BookingRequest.mk "flt" "FA_12345678" "economy" 100) "k2"
     (World.mk 2500 [] [] [] 0 0 0)
     (by decide) (by decide) (by decide) (by decide)⟩

/-- Admissions inside an open window: starting from a window opened at
`t0` with `k` admissions already counted, a batch of requests all timed
inside `[t0, t0 + 60)` that fits under the limit is admitted in full and
only advances the counter. -/
theorem runAdmits_within_window (lim t0 : Nat) :
    ∀ (ts : List Nat) (k : Nat), (∀ x ∈ ts, t0 ≤ x ∧ x < t0 + 60) →
      k + ts.length ≤ lim →
      runAdmits lim ts (some (RateWindow.mk t0 k)) =
        (ts.map (fun _ => (true, 0)), some (RateWindow.mk t0 (k + ts.length))) := by
  intro ts
  induction ts with
  | nil =>
    intro k _ _
    simp [runAdmits]
  | cons tNow ts ih =>
    intro k hin hle
    have hx := hin tNow (List.mem_cons_self tNow ts)
    have hlt : k < lim := by
      simp only [List.length_cons] at hle
      omega
    have ha : admitRequest lim tNow (some (RateWindow.mk t0 k)) =
        (true, 0, RateWindow.mk t0 (k + 1)) := by
      simp [admitRequest, show ¬ (t0 + 60 ≤ tNow) from by omega, hlt]
    have hrec := ih (k + 1) (fun x hx2 => hin x (List.mem_cons_of_mem tNow hx2))
      (by simp only [List.length_cons] at hle; omega)
    simp only [runAdmits, ha, hrec, List.map_cons, List.length_cons]
    rw [show k + 1 + ts.length = k + (ts.length + 1) from by omega]

/-- C6: for a tenant with rate limit `L`, issuing exactly `L` admission
requests within one fixed 60-second window (opened by the first request)
admits all of them, and the `(L+1)`-th request within the same window is
rejected with a strictly positive `retryAfterSeconds`; the rejected
request short-circuits at the boundary with a rate-limit error and never
reaches the Orchestrator (the orchestrator state is returned untouched). -/
theorem rate_limit_boundary (t : TenantProfile) (t0 : Nat) (ts : List Nat)
    (tn : Nat) (req : BookingRequest) (key : String) (ro : Bool) (w : World)
    (hlen : ts.length = t.rate_limit_per_minute)
    (hhead : ts.head? = some t0)
    (hin : ∀ x ∈ ts, t0 ≤ x ∧ x < t0 + 60)
    (hn1 : t0 ≤ tn) (hn2 : tn < t0 + 60) :
    (runAdmits t.rate_limit_per_minute ts none).1.all (fun p => p.1) = true ∧
    (admitRequest t.rate_limit_per_minute tn
      (runAdmits t.rate_limit_per_minute ts none).2).1 = false ∧
    0 < (admitRequest t.rate_limit_per_minute tn
      (runAdmits t.rate_limit_per_minute ts none).2).2.1 ∧
    handleCreate t tn (runAdmits t.rate_limit_per_minute ts none).2 req key ro w =
      (.rateLimited (t0 + 60 - tn),
       RateWindow.mk t0 t.rate_limit_per_minute, w) := by
  cases ts with
  | nil => simp at hhead
  | cons a ts2 =>
    have ha0 : a = t0 := by simpa using hhead
    subst ha0
    have hlim : t.rate_limit_per_minute = ts2.length + 1 := by
      simpa using hlen.symm
    have hfirst : admitRequest t.rate_limit_per_minute a none =
        (true, 0, RateWindow.mk a 1) := by
      simp [admitRequest, show 0 < t.rate_limit_per_minute from by omega]
    have hrec := runAdmits_within_window t.rate_limit_per_minute a ts2 1
      (fun x hx => hin x (List.mem_cons_of_mem a hx)) (by omega)
    have hrun : runAdmits t.rate_limit_per_minute (a :: ts2) none =
        ((true, 0) :: ts2.map (fun _ => (true, 0)),
         some (RateWindow.mk a t.rate_limit_per_minute)) := by
      simp only [runAdmits, hfirst, hrec]
      rw [show 1 + ts2.length = t.rate_limit_per_minute from by omega]
    have hrej : admitRequest t.rate_limit_per_minute tn
        (some (RateWindow.mk a t.rate_limit_per_minute)) =
        (false, a + 60 - tn, RateWindow.mk a t.rate_limit_per_minute) := by
      simp [admitRequest, show ¬ (a + 60 ≤ tn) from by omega]
    refine ⟨?_, ?_, ?_, ?_⟩
    · rw [hrun]
      simp
    · simp only [hrun, hrej]
    · simp only [hrun, hrej]
      omega
    · simp [handleCreate, hrun, hrej]

/-- Witness for C6 at TelcoCorp (limit 50): fifty admissions at second 7
are all admitted, and a fifty-first request at second 42 of the same
window is rejected with `retryAfterSeconds = 25` and leaves the
orchestrator state untouched. -/
theorem rate_limit_boundary_witness :
    (List.replicate 50 7).length = telcocorp.rate_limit_per_minute ∧
    ((runAdmits telcocorp.rate_limit_per_minute (List.replicate 50 7) none).1.all
        (fun p => p.1) = true ∧
     (admitRequest telcocorp.rate_limit_per_minute 42
       (runAdmits telcocorp.rate_limit_per_minute (List.replicate 50 7) none).2).1 =
       false ∧
     0 < (admitRequest telcocorp.rate_limit_per_minute 42
       (runAdmits telcocorp.rate_limit_per_minute (List.replicate 50 7) none).2).2.1 ∧
     handleCreate telcocorp 42
        (runAdmits telcocorp.rate_limit_per_minute (List.replicate 50 7) none).2
        (BookingRequest.mk "flt" "TC-ABC123" "economy" 100) "k6" true
        (World.mk 25000 [] [] [] 0 0 0) =
      (.rateLimited (7 + 60 - 42),
       RateWindow.mk 7 telcocorp.rate_limit_per_minute,
       World.mk 25000 [] [] [] 0 0 0)) :=
  ⟨by decide,
   rate_limit_boundary telcocorp 7 (List.replicate 50 7) 42
     (BookingRequest.mk "flt" "TC-ABC123" "economy" 100) "k6" true
     (World.mk 25000 [] [] [] 0 0 0)
     (by decide) (by decide) (by decide) (by decide) (by decide)⟩

/-- C9: a query parameter (`tenant`, `status`, `from_date`, `to_date`)
is present in the admin bookings request built by `fetchBookings` if and
only if the corresponding filter field is truthy, and the empty filter
object produces a request with no query parameters at all. -/
theorem fetch_bookings_params :
    (∀ f : Filters,
      (buildParams f).any (fun p => p.1 == "tenant") = truthy f.tenant ∧
      (buildParams f).any (fun p => p.1 == "status") = truthy f.status ∧
      (buildParams f).any (fun p => p.1 == "from_date") = truthy f.fromDate ∧
      (buildParams f).any (fun p => p.1 == "to_date") = truthy f.toDate) ∧
    buildParams emptyFilters = [] := by
  constructor
  · intro f
    refine ⟨?_, ?_, ?_, ?_⟩ <;>
      · simp only [buildParams, List.any_append]
        cases h1 : truthy f.tenant <;> cases h2 : truthy f.status <;>
          cases h3 : truthy f.fromDate <;> cases h4 : truthy f.toDate <;>
          simp
  · rfl

/-- C10: in the booking-details Payment section, every payment field
whose value is falsy (including a numeric 0) is rendered as a dash, so a
zero loyalty amount or USD equivalent is displayed identically to a
missing one. -/
theorem payment_falsy_renders_dash (p : PaymentObj) :
    (truthy p.loyalty_amount = false →
      renderedValue (paymentSection (some p)) "Loyalty Amount" = some "-") ∧
    (truthy p.loyalty_currency = false →
      renderedValue (paymentSection (some p)) "Loyalty Currency" = some "-") ∧
    (truthy p.usd_equivalent = false →
      renderedValue (paymentSection (some p)) "USD Equivalent" = some "-") ∧
    paymentSection (some { p with loyalty_amount := .num 0, usd_equivalent := .num 0 }) =
      paymentSection (some { p with loyalty_amount := .undef, usd_equivalent := .undef }) := by
  refine ⟨fun h => ?_, fun h => ?_, fun h => ?_, ?_⟩
  · simp [paymentSection, renderedValue, orDash, h]
  · simp [paymentSection, renderedValue, orDash, h]
  · simp [paymentSection, renderedValue, orDash, h]
  · simp [paymentSection, orDash, truthy]

/-- Witness for C10: a payment object with zero loyalty amount renders a
dash for Loyalty Amount. -/
theorem payment_falsy_renders_dash_witness :
    truthy (JSVal.num 0) = false ∧
    renderedValue
      (paymentSection (some { loyalty_amount := .num 0,
                              loyalty_currency := .str "stars",
                              usd_equivalent := .num 35000,
                              cashback := .undef })) "Loyalty Amount" = some "-" :=
  ⟨by decide,
   (payment_falsy_renders_dash
     { loyalty_amount := .num 0, loyalty_currency := .str "stars",
       usd_equivalent := .num 35000, cashback := .undef }).1 (by decide)⟩

end LoyaltyMW
